import Mathlib

/-!
Verification of the document-processing pipeline (OCR extraction, NLP fallback
analysis, orchestration) of the LMS repository, shallowly embedded in Lean.
The definitions below translate the Python source in ai_services.py; machine
strings are modelled as Lean strings (lists of characters), Python ints as Int,
and the float average confidence as a rational number.
-/

namespace LMS

/-! ### Python-semantics character classes and string primitives -/

/-- The whitespace set used by Python str.strip and str.split with no
separator argument (ASCII portion, which covers all inputs considered). -/
def isSpaceB (c : Char) : Bool :=
  c == ' ' || c == '\t' || c == '\n' || c == '\r' || c == '\x0b' || c == '\x0c'

/-- ASCII decimal digit, the semantics of the regex class backslash-d on the
ASCII inputs of this development. -/
def isDigitB (c : Char) : Bool := c.isDigit

/-- Regex word character (letter, digit or underscore), used by word
boundaries. -/
def isWordB (c : Char) : Bool := c.isAlpha || c.isDigit || c == '_'

/-- Drop the leading run of whitespace characters (half of Python strip). -/
def dropLeading : List Char → List Char
  | [] => []
  | c :: cs => if isSpaceB c then dropLeading cs else c :: cs

/-- Drop the trailing run of whitespace characters. -/
def dropTrailing (s : List Char) : List Char := (dropLeading s.reverse).reverse

/-- Python str.strip on character lists. -/
def stripChars (s : List Char) : List Char := dropTrailing (dropLeading s)

/-- Python str.strip. -/
def stripStr (s : String) : String := String.mk (stripChars s.data)

/-- Emptiness test on strings via the underlying character list. -/
def strEmpty (s : String) : Bool := s.data.isEmpty

/-- Python str.split with no argument: split on runs of whitespace, producing
no empty tokens.  The accumulator holds the current token reversed. -/
def splitWSAux : List Char → List Char → List (List Char)
  | [], acc => if acc.isEmpty then [] else [acc.reverse]
  | c :: cs, acc =>
    if isSpaceB c then
      if acc.isEmpty then splitWSAux cs [] else acc.reverse :: splitWSAux cs []
    else splitWSAux cs (c :: acc)

/-- Python str.split with no argument, on strings. -/
def pySplitWS (s : String) : List String :=
  (splitWSAux s.data []).map (fun l => String.mk l)

/-- Python str.split with a single-dot separator: keeps empty segments. -/
def splitDotAux : List Char → List Char → List (List Char)
  | [], acc => [acc.reverse]
  | c :: cs, acc =>
    if c == '.' then acc.reverse :: splitDotAux cs [] else splitDotAux cs (c :: acc)

/-- Python text.split on the dot character. -/
def splitDot (s : String) : List String :=
  (splitDotAux s.data []).map (fun l => String.mk l)

/-- Python str.lower (ASCII case folding, which covers all inputs here). -/
def toLowerStr (s : String) : String := String.mk (s.data.map Char.toLower)

/-- Does the second list begin with the first list? -/
def leadsWith : List Char → List Char → Bool
  | [], _ => true
  | _ :: _, [] => false
  | a :: as, b :: bs => a == b && leadsWith as bs

/-- Python substring membership needle-in-haystack on character lists. -/
def containsSub (nee : List Char) : List Char → Bool
  | [] => leadsWith nee []
  | c :: cs => leadsWith nee (c :: cs) || containsSub nee cs

/-- Python substring membership on strings: the second argument occurs inside
the first. -/
def containsS (hay nee : String) : Bool := containsSub nee.data hay.data

/-- Python first-n-characters slice text[:n]. -/
def takeChars (s : String) (n : Nat) : String := String.mk (s.data.take n)

/-! ### Sentiment scorer (NLPService._calculate_sentiment) -/

/-- The fixed positive lexicon of the sentiment heuristic. -/
def positive_words : List String :=
  ["good", "great", "excellent", "positive", "success", "happy", "pleased"]

/-- The fixed negative lexicon of the sentiment heuristic. -/
def negative_words : List String :=
  ["bad", "terrible", "negative", "failure", "unhappy", "disappointed", "problem"]

/-- Number of positive lexicon words occurring as substrings of the
lower-cased text (each lexicon word contributes at most 1). -/
def posCount (text : String) : Int :=
  ((positive_words.filter (fun w => containsS (toLowerStr text) w)).length : Int)

/-- Number of negative lexicon words occurring as substrings of the
lower-cased text. -/
def negCount (text : String) : Int :=
  ((negative_words.filter (fun w => containsS (toLowerStr text) w)).length : Int)

/-- NLPService._calculate_sentiment from ai_services.py. -/
def calculate_sentiment (text : String) : Int :=
  let p := posCount text
  let n := negCount text
  if n < p then min 100 ((p - n) * 20)
  else if p < n then max (-100) ((n - p) * (-20))
  else 0

/-! ### Document classifier (NLPService._detect_document_type) -/

/-- Invoice-class keywords. -/
def invoice_words : List String := ["invoice", "bill", "payment", "amount due"]

/-- Contract-class keywords. -/
def contract_words : List String := ["contract", "agreement", "terms", "conditions"]

/-- Report-class keywords. -/
def report_words : List String := ["report", "analysis", "findings", "conclusion"]

/-- Resume-class keywords. -/
def resume_words : List String := ["resume", "cv", "curriculum vitae", "experience"]

/-- Does any keyword of the list occur in the (already lower-cased) text? -/
def anyIn (tl : String) (ws : List String) : Bool := ws.any (fun w => containsS tl w)

/-- NLPService._detect_document_type from ai_services.py. -/
def detect_document_type (text : String) : String :=
  let tl := toLowerStr text
  if anyIn tl invoice_words then ("invoice")
  else if anyIn tl contract_words then ("contract")
  else if anyIn tl report_words then ("report")
  else if anyIn tl resume_words then ("resume")
  else ("general_document")

/-! ### Regex engine

A small backtracking matcher with Python re semantics for the three fixed
patterns of NLPService._extract_entities_regex: a matcher maps a string and a
start index to all candidate end indices in engine preference order (DFS over
alternatives and greedy repetitions), so the head of that list is the match
the Python engine picks at that start. -/

/-- A matcher: candidate end positions at a start index, best first. -/
def Matcher := List Char → Nat → List Nat

/-- Character at an index. -/
def charAt (s : List Char) (i : Nat) : Option Char := s.get? i

/-- Match one character of a class. -/
def mChar (p : Char → Bool) : Matcher := fun s i =>
  match charAt s i with
  | some c => if p c then [i + 1] else []
  | none => []

/-- Sequential composition in DFS preference order. -/
def mSeq (a b : Matcher) : Matcher := fun s i => (a s i).flatMap (fun j => b s j)

/-- Ordered alternation: the left alternative is preferred. -/
def mAlt (a b : Matcher) : Matcher := fun s i => a s i ++ b s i

/-- Length of the run of class characters starting at the head. -/
def runLenAux (p : Char → Bool) : List Char → Nat
  | [] => 0
  | c :: cs => if p c then runLenAux p cs + 1 else 0

/-- Length of the run of class characters starting at an index. -/
def runLen (p : Char → Bool) (s : List Char) (i : Nat) : Nat := runLenAux p (s.drop i)

/-- Greedy repetition of a character class between lo and an optional upper
bound: candidate lengths longest first, mirroring greedy backtracking. -/
def mRep (p : Char → Bool) (lo : Nat) (hi : Option Nat) : Matcher := fun s i =>
  let n := runLen p s i
  let top := match hi with | some h => min n h | none => n
  (((List.range (top + 1)).filter (fun k => decide (lo ≤ k))).reverse).map (fun k => i + k)

/-- Zero-width word boundary. -/
def mBound : Matcher := fun s i =>
  let before := match i with | 0 => false | j + 1 => match charAt s j with | some c => isWordB c | none => false
  let after := match charAt s i with | some c => isWordB c | none => false
  if before == after then [] else [i]

/-- Date separator class, slash or dash. -/
def isSep (c : Char) : Bool := c == '/' || c == '-'

/-- Digit-or-comma class of the first amount alternative. -/
def isDigitComma (c : Char) : Bool := c.isDigit || c == ','

/-- Local-part character class of the email pattern. -/
def isLocalC (c : Char) : Bool :=
  c.isAlpha || c.isDigit || c == '.' || c == '_' || c == '%' || c == '+' || c == '-'

/-- Domain character class of the email pattern. -/
def isDomC (c : Char) : Bool := c.isAlpha || c.isDigit || c == '.' || c == '-'

/-- Top-level-domain class of the email pattern (the source class also
contains a literal pipe character). -/
def isTldC (c : Char) : Bool := c.isAlpha || c == '|'

/-- The date pattern of the source: one-or-two digits, separator, one-or-two
digits, separator, two-to-four digits, between word boundaries; or four
digits, separator, one-or-two digits, separator, one-or-two digits. -/
def datePat : Matcher :=
  mAlt
    (mSeq mBound (mSeq (mRep isDigitB 1 (some 2)) (mSeq (mChar isSep)
      (mSeq (mRep isDigitB 1 (some 2)) (mSeq (mChar isSep)
      (mSeq (mRep isDigitB 2 (some 4)) mBound))))))
    (mSeq mBound (mSeq (mRep isDigitB 4 (some 4)) (mSeq (mChar isSep)
      (mSeq (mRep isDigitB 1 (some 2)) (mSeq (mChar isSep)
      (mSeq (mRep isDigitB 1 (some 2)) mBound))))))

/-- The amount pattern of the source: a dollar sign, digits or commas, an
optional dot, digits; or, between word boundaries, digits, a dot and exactly
two digits. -/
def amountPat : Matcher :=
  mAlt
    (mSeq (mChar (fun c => c == '$')) (mSeq (mRep isDigitComma 1 none)
      (mSeq (mRep (fun c => c == '.') 0 (some 1)) (mRep isDigitB 0 none))))
    (mSeq mBound (mSeq (mRep isDigitB 1 none) (mSeq (mChar (fun c => c == '.'))
      (mSeq (mRep isDigitB 2 (some 2)) mBound))))

/-- The email pattern of the source. -/
def emailPat : Matcher :=
  mSeq mBound (mSeq (mRep isLocalC 1 none) (mSeq (mChar (fun c => c == '@'))
    (mSeq (mRep isDomC 1 none) (mSeq (mChar (fun c => c == '.'))
      (mSeq (mRep isTldC 2 none) mBound)))))

/-- Python re.findall scan: try each position left to right, take the engine
match there if any, and continue after it.  Fuel decreases every step. -/
def findallAux (m : Matcher) (s : List Char) : Nat → Nat → List (List Char)
  | 0, _ => []
  | fuel + 1, i =>
    if s.length < i then []
    else
      match (m s i).head? with
      | some j =>
        if i < j then ((s.drop i).take (j - i)) :: findallAux m s fuel j
        else findallAux m s fuel (i + 1)
      | none => findallAux m s fuel (i + 1)

/-- Python re.findall for the group-free patterns above. -/
def findall (m : Matcher) (s : String) : List String :=
  (findallAux m s.data (s.data.length + 1) 0).map (fun l => String.mk l)

/-! ### Entity extraction, summary, fallback analysis -/

/-- The key_entities mapping: all four categories are always present. -/
structure Entities where
  names : List String
  dates : List String
  amounts : List String
  other : List String
deriving Repr, DecidableEq

/-- NLPService._extract_entities_regex from ai_services.py: the names
category is never filled, each other category is a deduplicated findall. -/
def extract_entities_regex (text : String) : Entities :=
  { names := [],
    dates := (findall datePat text).dedup,
    amounts := (findall amountPat text).dedup,
    other := (findall emailPat text).dedup }

/-- NLPService._generate_summary from ai_services.py. -/
def generate_summary (text : String) : String :=
  let sentences := splitDot text
  if 3 < sentences.length then
    String.intercalate (". ") (sentences.take 2) ++ (".")
  else if 200 < text.length then takeChars text 200 ++ ("...") else text

/-- The shape of an analysis result: document type, entities, summary and
sentiment score. -/
structure AnalysisResult where
  document_type : String
  key_entities : Entities
  summary : String
  sentiment_score : Int
deriving Repr, DecidableEq

/-- NLPService._fallback_analysis from ai_services.py. -/
def fallback_analysis (text : String) : AnalysisResult :=
  { document_type := detect_document_type text,
    key_entities := extract_entities_regex text,
    summary := generate_summary text,
    sentiment_score := calculate_sentiment text }

/-- Outcome of the remote-LLM call as observed by analyze_document: either a
successfully parsed JSON analysis, or any exception (network failure, empty
response, JSON parse failure). -/
inductive RemoteOutcome
  | ok (r : AnalysisResult)
  | exn (msg : String)

/-- NLPService.analyze_document from ai_services.py, with the configured
client modelled as an Option and the remote interaction as a RemoteOutcome
oracle; the Bool records whether a network call was attempted. -/
def analyze_document (client : Option Unit) (remote : RemoteOutcome) (text : String) :
    AnalysisResult × Bool :=
  match client with
  | none => (fallback_analysis text, false)
  | some _ =>
    match remote with
    | .ok r => (r, true)
    | .exn _ => (fallback_analysis text, true)

/-! ### OCR extraction (OCRService.extract_text) -/

/-- The raw output of the OCR backend: the per-token confidence integers of
image_to_data and the plain text of image_to_string. -/
structure OCRData where
  conf : List Int
  text : String

/-- Python round half to even of a rational number to an integer. -/
def roundHalfEven (q : ℚ) : ℤ :=
  let f : ℤ := ⌊q⌋
  let r : ℚ := q - (f : ℚ)
  if r < 1 / 2 then f
  else if 1 / 2 < r then f + 1
  else if f % 2 = 0 then f else f + 1

/-- Python round(x, 2): round half to even at two decimal places. -/
def round2 (q : ℚ) : ℚ := ((roundHalfEven (q * 100) : ℚ)) / 100

/-- The value OCRService.extract_text returns: text, average confidence,
word count, character count, and the error message of the failure dict. -/
structure ExtractionResult where
  text : String
  confidence : ℚ
  word_count : Nat
  character_count : Nat
  error : Option String

/-- OCRService.extract_text from ai_services.py, with the OCR backend
interaction (image open, conversion, tesseract calls) modelled as an Except:
an error is any exception raised inside the try block. -/
def extract_text (ocr : Except String OCRData) : ExtractionResult :=
  match ocr with
  | .ok d =>
    let confidences := d.conf.filter (fun c => 0 < c)
    let avg : ℚ :=
      if confidences.isEmpty then 0
      else ((confidences.sum : ℚ)) / ((confidences.length : ℚ))
    { text := stripStr d.text,
      confidence := round2 avg,
      word_count := (pySplitWS d.text).length,
      character_count := d.text.length,
      error := none }
  | .error e =>
    { text := (""), confidence := 0, word_count := 0, character_count := 0,
      error := some e }

/-! ### Pipeline orchestrator (DocumentProcessor.process_document) -/

/-- The result dictionary built by DocumentProcessor.process_document.  Keys
the code only sets on some paths are Options; in particular status stays none
on the paths that return early without assigning it. -/
structure ProcRecord where
  file_path : String
  mime_type : String
  processing_started_at : String
  steps_completed : List String
  errors : List String
  ocr_result : Option ExtractionResult
  nlp_result : Option AnalysisResult
  extracted_text : Option String
  document_type : Option String
  key_entities : Option Entities
  summary : Option String
  sentiment_score : Option Int
  confidence_score : Option ℚ
  processing_completed_at : Option String
  status : Option String

/-- Does the mime type start with image-slash (Python startswith)? -/
def isImageMime (m : String) : Bool := leadsWith ("image/").data m.data

/-- DocumentProcessor.process_document from ai_services.py.  t0 and t1 stand
for the two datetime.now() readings; ocr is the OCR backend interaction,
fileRead the result of reading the file as UTF-8 text (an exception there is
caught by the outer handler), client and remote parametrise the NLP service
as in analyze_document. -/
def process_document (t0 t1 : String) (file_path mime_type : String)
    (ocr : Except String OCRData) (fileRead : Except String String)
    (client : Option Unit) (remote : RemoteOutcome) : ProcRecord :=
  let base : ProcRecord :=
    { file_path := file_path, mime_type := mime_type, processing_started_at := t0,
      steps_completed := [], errors := [], ocr_result := none, nlp_result := none,
      extracted_text := none, document_type := none, key_entities := none,
      summary := none, sentiment_score := none, confidence_score := none,
      processing_completed_at := none, status := none }
  if isImageMime mime_type then
    let ocrr := extract_text ocr
    let r1 : ProcRecord := { base with ocr_result := some ocrr, steps_completed := [("ocr")] }
    match ocrr.error with
    | some e => { r1 with errors := r1.errors ++ [("OCR failed: ") ++ e] }
    | none =>
      if strEmpty (stripStr ocrr.text) then
        { r1 with errors := r1.errors ++ [("No text extracted from document")] }
      else
        let nlp := (analyze_document client remote ocrr.text).1
        { r1 with
          steps_completed := r1.steps_completed ++ [("nlp_analysis")],
          nlp_result := some nlp,
          extracted_text := some ocrr.text,
          document_type := some nlp.document_type,
          key_entities := some nlp.key_entities,
          summary := some nlp.summary,
          sentiment_score := some nlp.sentiment_score,
          confidence_score := some ocrr.confidence,
          processing_completed_at := some t1,
          status := some ("completed") }
  else
    match fileRead with
    | .error e =>
      { base with
        errors := [e],
        status := some ("failed"),
        processing_completed_at := some t1 }
    | .ok text =>
      let r1 : ProcRecord := { base with steps_completed := [("text_extraction")] }
      if strEmpty (stripStr text) then
        { r1 with errors := r1.errors ++ [("No text extracted from document")] }
      else
        let nlp := (analyze_document client remote text).1
        { r1 with
          steps_completed := r1.steps_completed ++ [("nlp_analysis")],
          nlp_result := some nlp,
          extracted_text := some text,
          document_type := some nlp.document_type,
          key_entities := some nlp.key_entities,
          summary := some nlp.summary,
          sentiment_score := some nlp.sentiment_score,
          confidence_score := some ((100 : ℚ)),
          processing_completed_at := some t1,
          status := some ("completed") }

/-- The end-to-end sample text of the plain-text pipeline property. -/
def c4text : String := "Great results this quarter, revenue $2.5M, date 2024-01-15"

/-- The sample text of the entity-extraction property. -/
def c9text : String := "Contact a@b.com on 2024-01-15 for $1,250.00"

/-! ### Supporting lemmas -/

/-- Leading whitespace does not change whitespace splitting. -/
theorem splitWSAux_dropLeading (s : List Char) :
    splitWSAux (dropLeading s) [] = splitWSAux s [] := by
  induction s with
  | nil => rfl
  | cons c cs ih =>
    by_cases h : isSpaceB c
    · simpa [dropLeading, splitWSAux, h] using ih
    · simp [dropLeading, h]

/-- Whitespace splitting of an all-whitespace list yields at most the pending
token. -/
theorem splitWSAux_allSpace (ws : List Char) (h : ∀ c ∈ ws, isSpaceB c = true) :
    ∀ acc, splitWSAux ws acc = if acc.isEmpty then [] else [acc.reverse] := by
  induction ws with
  | nil => intro acc; rfl
  | cons c t ih =>
    intro acc
    have hc : isSpaceB c = true := h c (List.mem_cons_self c t)
    have ht : ∀ x ∈ t, isSpaceB x = true := fun x hx => h x (List.mem_cons_of_mem c hx)
    have h0 : splitWSAux t [] = [] := by simpa using ih ht []
    by_cases ha : acc.isEmpty <;> simp [splitWSAux, hc, ha, h0]

/-- Appending trailing whitespace does not change whitespace splitting. -/
theorem splitWSAux_append_space (xs ws : List Char)
    (h : ∀ c ∈ ws, isSpaceB c = true) :
    ∀ acc, splitWSAux (xs ++ ws) acc = splitWSAux xs acc := by
  induction xs with
  | nil =>
    intro acc
    rw [List.nil_append, splitWSAux_allSpace ws h acc]
    rfl
  | cons c t ih =>
    intro acc
    by_cases hc : isSpaceB c <;> simp [splitWSAux, hc, ih]

/-- Every list is an all-whitespace run followed by its dropLeading. -/
theorem dropLeading_decomp (u : List Char) :
    ∃ sp, (∀ c ∈ sp, isSpaceB c = true) ∧ u = sp ++ dropLeading u := by
  induction u with
  | nil => exact ⟨[], by simp, rfl⟩
  | cons c t ih =>
    by_cases h : isSpaceB c
    · obtain ⟨sp, hsp, he⟩ := ih
      refine ⟨c :: sp, ?_, ?_⟩
      · intro x hx
        rcases List.mem_cons.mp hx with hx | hx
        · exact hx ▸ h
        · exact hsp x hx
      · simpa [dropLeading, h] using he
    · exact ⟨[], by simp, by simp [dropLeading, h]⟩

/-- Trailing whitespace removal does not change whitespace splitting. -/
theorem splitWSAux_dropTrailing (s : List Char) :
    splitWSAux (dropTrailing s) [] = splitWSAux s [] := by
  obtain ⟨sp, hsp, he⟩ := dropLeading_decomp s.reverse
  have hs : s = dropTrailing s ++ sp.reverse := by
    have h2 := congrArg List.reverse he
    simpa [dropTrailing] using h2
  conv_rhs => rw [hs]
  rw [splitWSAux_append_space _ _ (fun c hc => hsp c (List.mem_reverse.mp hc))]

/-- Stripping does not change whitespace splitting. -/
theorem splitWSAux_strip (s : List Char) :
    splitWSAux (stripChars s) [] = splitWSAux s [] := by
  rw [stripChars, splitWSAux_dropTrailing, splitWSAux_dropLeading]

/-- Stripping does not change the whitespace token list of a string. -/
theorem pySplitWS_strip (s : String) : pySplitWS (stripStr s) = pySplitWS s := by
  show (splitWSAux (stripChars s.data) []).map _ = (splitWSAux s.data []).map _
  rw [splitWSAux_strip]

/-- Rounding zero to two decimal places gives zero. -/
theorem round2_zero : round2 0 = 0 := by
  have h : roundHalfEven (0 * 100) = 0 := by
    unfold roundHalfEven
    norm_num
  rw [round2, h]
  norm_num

/-! ### Claim theorems -/

/-- Claim C1: for an image whose OCR yields empty text, process_document
stops after the ocr step with the no-text error message, but the returned
record has NO status key at all: the code never assigns status on that early
return (nor on the OCR-error return), contradicting the specified
processing-to-failed transition, and the caller in main.py reads the status
key unconditionally.  This theorem evaluates the code at the failing input:
status is none rather than the claimed failed. -/
theorem c1_blank_image_record :
    ((process_document ("t0") ("t1") ("blank.png") ("image/png")
        (Except.ok (OCRData.mk [(-1 : Int)] (""))) (Except.error ("unused"))
        none (RemoteOutcome.exn ("unused"))).status = none) ∧
    ((process_document ("t0") ("t1") ("blank.png") ("image/png")
        (Except.ok (OCRData.mk [(-1 : Int)] (""))) (Except.error ("unused"))
        none (RemoteOutcome.exn ("unused"))).errors
      = [("No text extracted from document")]) ∧
    ((process_document ("t0") ("t1") ("blank.png") ("image/png")
        (Except.ok (OCRData.mk [(-1 : Int)] (""))) (Except.error ("unused"))
        none (RemoteOutcome.exn ("unused"))).steps_completed = [("ocr")]) :=
  ⟨by decide, by decide, by decide⟩

/-- Claim C2 counterexample: the text great-great-good has three occurrences
of positive lexicon words but only two distinct lexicon words present, and
the code counts each lexicon word once, so the score is 40, not the claimed
60. -/
theorem c2_sentiment_counterexample :
    ¬ (calculate_sentiment ("great great good") = 60) := by decide

/-- Claim C2 as amended: the fallback sentiment scorer follows the stated
min/max formula where positive and negative counts are the numbers of
distinct lexicon words present as substrings of the lower-cased text (each
lexicon word counted once, however often it occurs); hence great-great-good
scores 40, a text matching no lexicon word scores 0, and every score lies
within -100 and 100. -/
theorem c2_sentiment :
    calculate_sentiment ("great great good") = 40 ∧
    (∀ t, calculate_sentiment t =
      (if negCount t < posCount t then min 100 ((posCount t - negCount t) * 20)
       else if posCount t < negCount t then
         max (-100) ((negCount t - posCount t) * (-20))
       else 0)) ∧
    (∀ t, posCount t = 0 → negCount t = 0 → calculate_sentiment t = 0) ∧
    (∀ t, -100 ≤ calculate_sentiment t ∧ calculate_sentiment t ≤ 100) := by
  refine ⟨by decide, fun t => rfl, fun t hp hn => ?_, fun t => ?_⟩
  · simp [calculate_sentiment, hp, hn]
  · have hb : calculate_sentiment t =
        (if negCount t < posCount t then min 100 ((posCount t - negCount t) * 20)
         else if posCount t < negCount t then
           max (-100) ((negCount t - posCount t) * (-20))
         else 0) := rfl
    rw [hb]
    by_cases h1 : negCount t < posCount t
    · simp only [if_pos h1]
      have hx : (20 : Int) ≤ (posCount t - negCount t) * 20 := by
        have h2 : (1 : Int) ≤ posCount t - negCount t := by omega
        nlinarith
      exact ⟨le_min (by norm_num) (by linarith), min_le_left _ _⟩
    · simp only [if_neg h1]
      by_cases h2 : posCount t < negCount t
      · simp only [if_pos h2]
        have hx : (negCount t - posCount t) * (-20) ≤ -20 := by
          have h3 : (1 : Int) ≤ negCount t - posCount t := by omega
          nlinarith
        exact ⟨le_max_left _ _, max_le (by norm_num) (by linarith)⟩
      · simp only [if_neg h2]
        norm_num

/-- Witness for the amended claim C2: a text matching no lexicon word (both
counts are zero) scores 0. -/
theorem c2_sentiment_witness : calculate_sentiment ("zzz") = 0 :=
  c2_sentiment.2.2.1 ("zzz") (by decide) (by decide)

/-- Claim C3 counterexample: for OCR text with a trailing newline the
character_count is the length of the raw extracted text (3), not the length
of the trimmed text field (2). -/
theorem c3_charcount_counterexample :
    (extract_text (Except.ok (OCRData.mk [] ("hi\n")))).character_count
      ≠ ((extract_text (Except.ok (OCRData.mk [] ("hi\n")))).text).length := by decide

/-- Claim C3 as amended: for every successful image extraction the text field
is the trimmed extracted text and word_count is the number of
whitespace-delimited tokens of that trimmed text, but character_count is the
length of the raw (untrimmed) extracted text. -/
theorem c3_extraction_counts (d : OCRData) :
    (extract_text (Except.ok d)).text = stripStr d.text ∧
    (extract_text (Except.ok d)).word_count = (pySplitWS (stripStr d.text)).length ∧
    (extract_text (Except.ok d)).character_count = d.text.length := by
  refine ⟨rfl, ?_, rfl⟩
  show (pySplitWS d.text).length = (pySplitWS (stripStr d.text)).length
  rw [pySplitWS_strip]

/-- Claim C4: processing the sample plain-text file with no backend
configured completes with document type general_document, a positive
sentiment score, the date 2024-01-15 among the dates, and — exactly as the
amount regex behaves on the abbreviated currency form — the partial match
produced on the 2.5M dollar figure (the dollar-2.5 string) among the
amounts, while the full dollar-2.5M token itself is not a match. -/
theorem c4_text_pipeline (t0 t1 fp mime : String) (remote : RemoteOutcome)
    (h : isImageMime mime = false) :
    (process_document t0 t1 fp mime (Except.error ("x")) (Except.ok c4text)
        none remote).status = some ("completed") ∧
    (process_document t0 t1 fp mime (Except.error ("x")) (Except.ok c4text)
        none remote).document_type = some ("general_document") ∧
    (∃ v, (process_document t0 t1 fp mime (Except.error ("x")) (Except.ok c4text)
        none remote).sentiment_score = some v ∧ 0 < v) ∧
    (process_document t0 t1 fp mime (Except.error ("x")) (Except.ok c4text)
        none remote).key_entities = some (extract_entities_regex c4text) ∧
    ("2024-01-15") ∈ (extract_entities_regex c4text).dates ∧
    findall amountPat ("$2.5M") = [("$2.5")] ∧
    ("$2.5") ∈ (extract_entities_regex c4text).amounts ∧
    ("$2.5M") ∉ (extract_entities_regex c4text).amounts := by
  unfold process_document
  rw [h]
  refine ⟨rfl, rfl, ⟨20, rfl, by norm_num⟩, rfl, by decide, by decide, by decide, by decide⟩

/-- Witness for claim C4 at a concrete non-image mime type. -/
theorem c4_text_pipeline_witness :
    (process_document ("t0") ("t1") ("report.txt") ("text/plain")
        (Except.error ("x")) (Except.ok c4text)
        none (RemoteOutcome.exn ("y"))).status = some ("completed") :=
  (c4_text_pipeline ("t0") ("t1") ("report.txt") ("text/plain")
    (RemoteOutcome.exn ("y")) (by decide)).1

/-- Claim C5: for every image input, the extraction confidence is the
arithmetic mean of the strictly positive per-token confidences rounded to
two decimal places; when no token has positive confidence the confidence is
0 and the divisor is provably nonzero whenever the division is reached, and
an extraction error also yields confidence 0. -/
theorem c5_confidence_mean (d : OCRData) (e : String) :
    ((d.conf.filter (fun c => 0 < c)).isEmpty = true →
        (extract_text (Except.ok d)).confidence = 0) ∧
    ((d.conf.filter (fun c => 0 < c)).isEmpty = false →
        (extract_text (Except.ok d)).confidence =
          round2 ((((d.conf.filter (fun c => 0 < c)).sum : ℚ)) /
            (((d.conf.filter (fun c => 0 < c)).length : ℚ))) ∧
        (((d.conf.filter (fun c => 0 < c)).length : ℚ)) ≠ 0) ∧
    (extract_text (Except.error e)).confidence = 0 := by
  have hc : (extract_text (Except.ok d)).confidence
      = round2 (if (d.conf.filter (fun c => 0 < c)).isEmpty then 0
          else (((d.conf.filter (fun c => 0 < c)).sum : ℚ)) /
            (((d.conf.filter (fun c => 0 < c)).length : ℚ))) := rfl
  refine ⟨fun hemp => ?_, fun hemp => ⟨?_, ?_⟩, rfl⟩
  · rw [hc, hemp, if_pos rfl]
    exact round2_zero
  · rw [hc, hemp]
    rfl
  · have hlen : (d.conf.filter (fun c => 0 < c)).length ≠ 0 := by
      cases hfl : d.conf.filter (fun c => 0 < c) with
      | nil => rw [hfl] at hemp; simp [List.isEmpty] at hemp
      | cons a l => simp
    exact Nat.cast_ne_zero.mpr hlen

/-- Witness for claim C5: an input whose tokens all have nonpositive
confidence yields confidence 0. -/
theorem c5_confidence_mean_witness :
    (extract_text (Except.ok (OCRData.mk [(-1 : Int), 0] ("")))).confidence = 0 :=
  (c5_confidence_mean (OCRData.mk [(-1 : Int), 0] ("")) ("x")).1 (by decide)

/-- Claim C6: with no backend configured the pipeline takes the fallback
path, and its analysis output is identical across re-runs: it does not
depend on the timestamps of the run nor on the remote oracle, only on the
file content and category. -/
theorem c6_fallback_deterministic (fp mime t0 t1 t0' t1' : String)
    (ocr : Except String OCRData) (fileRead : Except String String)
    (remote remote' : RemoteOutcome) :
    (process_document t0 t1 fp mime ocr fileRead none remote).nlp_result
      = (process_document t0' t1' fp mime ocr fileRead none remote').nlp_result := by
  simp only [process_document]
  cases him : isImageMime mime
  · cases fileRead with
    | error e => rfl
    | ok text =>
      simp only [Bool.false_eq_true, if_false]
      cases hs : strEmpty (stripStr text) <;> rfl
  · cases ocr with
    | error e => rfl
    | ok d =>
      simp only [if_true, extract_text]
      cases hs : strEmpty (stripStr (stripStr d.text)) <;> rfl

/-- Claim C7: analyze_document always returns an analysis value — with no
configured client it returns the fallback with no network call attempted,
any exception on the primary path is routed to the fallback, and a
successful primary response is returned as is. -/
theorem c7_analyze_total :
    (∀ (remote : RemoteOutcome) (t : String),
        analyze_document none remote t = (fallback_analysis t, false)) ∧
    (∀ (m : String) (t : String),
        analyze_document (some ()) (RemoteOutcome.exn m) t = (fallback_analysis t, true)) ∧
    (∀ (r : AnalysisResult) (t : String),
        analyze_document (some ()) (RemoteOutcome.ok r) t = (r, true)) :=
  ⟨fun _ _ => rfl, fun _ _ => rfl, fun _ _ => rfl⟩

/-- Claim C8: the classifier tests the lower-cased text against the fixed
keyword sets in the priority order invoice, contract, report, resume; the
first matching category wins (so any text with an invoice keyword is
classified invoice whatever else matches), and a text matching no keyword is
a general_document. -/
theorem c8_classifier_priority :
    (∀ t, anyIn (toLowerStr t) invoice_words = true →
        detect_document_type t = ("invoice")) ∧
    (∀ t, anyIn (toLowerStr t) invoice_words = false →
          anyIn (toLowerStr t) contract_words = true →
        detect_document_type t = ("contract")) ∧
    (∀ t, anyIn (toLowerStr t) invoice_words = false →
          anyIn (toLowerStr t) contract_words = false →
          anyIn (toLowerStr t) report_words = true →
        detect_document_type t = ("report")) ∧
    (∀ t, anyIn (toLowerStr t) invoice_words = false →
          anyIn (toLowerStr t) contract_words = false →
          anyIn (toLowerStr t) report_words = false →
          anyIn (toLowerStr t) resume_words = true →
        detect_document_type t = ("resume")) ∧
    (∀ t, anyIn (toLowerStr t) invoice_words = false →
          anyIn (toLowerStr t) contract_words = false →
          anyIn (toLowerStr t) report_words = false →
          anyIn (toLowerStr t) resume_words = false →
        detect_document_type t = ("general_document")) := by
  refine ⟨fun t h1 => ?_, fun t h1 h2 => ?_, fun t h1 h2 h3 => ?_,
    fun t h1 h2 h3 h4 => ?_, fun t h1 h2 h3 h4 => ?_⟩ <;>
  simp [detect_document_type, *]

/-- Witness for claim C8: a text with both an invoice and a contract keyword
classifies as invoice. -/
theorem c8_classifier_priority_witness :
    detect_document_type ("invoice for the service contract") = ("invoice") :=
  c8_classifier_priority.1 ("invoice for the service contract") (by decide)

/-- Claim C9: on the sample text the fallback entity extraction finds
exactly the date, the amount and the email address, and for every text the
names category stays empty while the populated categories are deduplicated. -/
theorem c9_entity_extraction :
    extract_entities_regex c9text =
      Entities.mk [] [("2024-01-15")] [("$1,250.00")] [("a@b.com")] ∧
    (∀ t, (extract_entities_regex t).names = []) ∧
    (∀ t, ((extract_entities_regex t).dates).Nodup ∧
      ((extract_entities_regex t).amounts).Nodup ∧
      ((extract_entities_regex t).other).Nodup) := by
  refine ⟨by decide, fun t => rfl,
    fun t => ⟨List.nodup_dedup _, List.nodup_dedup _, List.nodup_dedup _⟩⟩

/-- Claim C10: the fallback analysis of the empty string is a complete
result: document type general_document, all four entity categories present
and empty, the summary is the empty text unchanged, and the sentiment is 0. -/
theorem c10_fallback_empty :
    fallback_analysis ("") =
      AnalysisResult.mk ("general_document") (Entities.mk [] [] [] []) ("") 0 := by decide

end LMS


